import Mathlib

/-!
Verification of the `mobile-synthesizer` backend (src/synthesizer_app).

The repository is a FastAPI application (`app/main.py`) that mounts a static
file directory at `/static`, registers seven GET page routes rendering Jinja2
templates, and two JSON health endpoints (`GET /` and `GET /api/health`).
A near-duplicate router module (`app/api/pages.py`, `app/api/endpoints.py`)
defines the same page routes and health endpoint.

Shallow embedding conventions:
- A request is its method, path and query parameters (the handlers consult
  only method and path; the query list is carried to state independence).
- The template directory and the static directory are modelled as lookup
  functions (name to optional file contents); Jinja2 rendering of a template
  file is abstracted as a quantified function `render` from the template
  file's contents to the produced markup, since the handlers pass the
  template layer an opaque context and the template files themselves are
  presentation assets outside the repository's application code.
- FastAPI/Starlette dispatch is embedded by `handle`: mount prefix match
  first (registration order in `main.py`), then exact path match; a matched
  path with a method other than GET answers 405 (FastAPI registers exactly
  the decorated method on `@app.get` routes); a missing template
  file raises `TemplateNotFound`, which the default error handler turns
  into a plain 500 response.
- The `FastAPI(...)` constructor call (`main.py` line 15) additionally
  registers four documentation routes with default URLs (`/openapi.json`,
  `/docs`, `/docs/oauth2-redirect`, `/redoc`), all answering 200 on GET;
  and Starlette's default `redirect_slashes` answers 307 for an unmatched
  path whose slash-toggled variant matches a route. Only after these does
  an unmatched path answer 404.
-/

namespace MobileSynth

/-- HTTP methods relevant to dispatch. -/
inductive Method where
  | GET
  | HEAD
  | POST
  | PUT
  | DELETE
  | PATCH
  | OPTIONS
deriving DecidableEq, Repr

/-- An inbound HTTP request: method, path, and query parameters.
The application's handlers never consult `query`. -/
structure Request where
  method : Method
  path : String
  query : List (String × String)
deriving DecidableEq, Repr

/-- An HTTP response: status code, content type, body bytes (as a string). -/
structure Response where
  status : Nat
  contentType : String
  body : String
deriving DecidableEq, Repr

/-- Serialization of a `dict[str, str]` return value, as FastAPI's JSON
response encoder produces for the two health handlers. -/
def jsonBody (kvs : List (String × String)) : String :=
  "\x7b" ++ String.intercalate (", ")
    (kvs.map (fun kv => "\"" ++ kv.1 ++ "\": \"" ++ kv.2 ++ "\"")) ++ "\x7d"

/-- A FastAPI JSON 200 response for a `dict[str, str]` handler return. -/
def jsonResponse (kvs : List (String × String)) : Response :=
  { status := 200, contentType := "application/json", body := jsonBody kvs }

/-- FastAPI's default 404 response for an unmatched path. -/
def notFound : Response :=
  { status := 404, contentType := "application/json"
    body := jsonBody [("detail", "Not Found")] }

/-- Starlette `StaticFiles` 404 response for a missing or escaping file path. -/
def staticNotFound : Response :=
  { status := 404, contentType := "text/plain; charset=utf-8", body := "Not Found" }

/-- FastAPI's default 405 response when a path matches but the method is not
among the registered methods. -/
def methodNotAllowed : Response :=
  { status := 405, contentType := "application/json"
    body := jsonBody [("detail", "Method Not Allowed")] }

/-- Starlette's default 500 response produced by the server-error middleware
when a handler raises (here: Jinja2 `TemplateNotFound`). -/
def internalServerError : Response :=
  { status := 500, contentType := "text/plain; charset=utf-8"
    body := "Internal Server Error" }

/-- Embeds `templates.TemplateResponse(name, ctx)` from `main.py` /
`pages.py`: look the template file up in the template directory `tstore`;
if present, answer 200 `text/html` with the rendered markup (`render`
abstracts Jinja2's rendering of the file's contents under the handler's
opaque context); if absent, Jinja2 raises `TemplateNotFound` and the
framework default turns the request into a 500. -/
def TemplateResponse (render : String → String) (tstore : String → Option String)
    (name : String) : Response :=
  match tstore name with
  | some tpl =>
      { status := 200, contentType := "text/html; charset=utf-8", body := render tpl }
  | none => internalServerError

/-- Return value of `root()` in `main.py` (lines 34-41). -/
def rootPayload : List (String × String) :=
  [("message", "Mobile Synthesizer API is running"),
   ("version", "0.1.0"),
   ("status", "healthy")]

/-- Return value of `api_health()` in `main.py` (lines 94-97). -/
def apiHealthPayload : List (String × String) :=
  [("status", "healthy"),
   ("message", "Mobile Synthesizer API is operational")]

/-- The `root` handler of `main.py`. -/
def root : Response := jsonResponse rootPayload

/-- The `api_health` handler of `main.py`. -/
def api_health : Response := jsonResponse apiHealthPayload

/-- The `synthesizer_interface` handler of `main.py`. -/
def synthesizer_interface (render : String → String)
    (tstore : String → Option String) : Response :=
  TemplateResponse render tstore ("synthesizer.html")

/-- The `mixer_interface` handler of `main.py`. -/
def mixer_interface (render : String → String)
    (tstore : String → Option String) : Response :=
  TemplateResponse render tstore ("mixer.html")

/-- The `presets_interface` handler of `main.py`. -/
def presets_interface (render : String → String)
    (tstore : String → Option String) : Response :=
  TemplateResponse render tstore ("presets.html")

/-- The `sequencer_interface` handler of `main.py`. -/
def sequencer_interface (render : String → String)
    (tstore : String → Option String) : Response :=
  TemplateResponse render tstore ("sequencer.html")

/-- The `recording_interface` handler of `main.py`. -/
def recording_interface (render : String → String)
    (tstore : String → Option String) : Response :=
  TemplateResponse render tstore ("recording.html")

/-- The `effects_interface` handler of `main.py`. -/
def effects_interface (render : String → String)
    (tstore : String → Option String) : Response :=
  TemplateResponse render tstore ("effects.html")

/-- The `profile_interface` handler of `main.py`. -/
def profile_interface (render : String → String)
    (tstore : String → Option String) : Response :=
  TemplateResponse render tstore ("profile.html")

/-- The seven page names of the specification. -/
def pageNames : List String :=
  ["synthesizer", "mixer", "presets", "sequencer", "recording", "effects", "profile"]

/-- The page-route table registered inline in `main.py` (lines 45-90):
URL path paired with the template name the handler renders. -/
def mainPageRoutes : List (String × String) :=
  [("/synthesizer", "synthesizer.html"),
   ("/mixer", "mixer.html"),
   ("/presets", "presets.html"),
   ("/sequencer", "sequencer.html"),
   ("/recording", "recording.html"),
   ("/effects", "effects.html"),
   ("/profile", "profile.html")]

/-- Template name a page path dispatches to, per the route table. -/
def pageTemplate (p : String) : Option String :=
  (mainPageRoutes.find? (fun r => r.1 = p)).map Prod.snd

/-- The exact paths registered by the route decorators of `main.py`
(lines 34-97); the route table is built once, from constants only - it
never consults the template directory. Beyond these nine, the `FastAPI`
constructor (line 15) auto-registers the four documentation routes listed
in `docsPaths` below. -/
def registeredPaths : List String :=
  "/" :: "/api/health" :: mainPageRoutes.map Prod.fst

/-- Structural character-list test that `cs` begins with `ps`
(the behaviour of `str.startswith` used by route prefix matching). -/
def charsStartWith : List Char → List Char → Bool
  | _, [] => true
  | [], _ :: _ => false
  | c :: cs, d :: ds => c == d && charsStartWith cs ds

/-- String begins-with over the underlying character lists. -/
def strStartsWith (s pre : String) : Bool :=
  charsStartWith s.data pre.data

/-- Structural splitting of a character list at `/`, matching Python's
`str.split("/")` / Starlette's treatment of the remaining mount path. -/
def splitSlashAux : List Char → List Char → List String
  | [], acc => [String.mk acc.reverse]
  | c :: cs, acc =>
      if c = '/' then String.mk acc.reverse :: splitSlashAux cs []
      else splitSlashAux cs (c :: acc)

/-- Split a path string into its `/`-separated segments. -/
def splitSlash (s : String) : List String :=
  splitSlashAux s.data []

/-- Starlette `Mount("/static", ...)` match: the mount handles
exactly the path `/static` and every path beginning `/static/`. -/
def matchesStaticMount (p : String) : Bool :=
  p == "/static" || strStartsWith p ("/static/")

/-- Embeds Starlette `StaticFiles` path resolution
(`os.path.normpath` on the joined segments, then the containment check of
the resolved real path against the mounted directory): empty and `.`
segments are dropped, `..` pops the previous segment, and a `..` that would
climb above the mounted directory makes resolution fail. -/
def resolveStatic (segs : List String) : Option (List String) :=
  (segs.foldl
    (fun acc seg =>
      acc.bind (fun stack =>
        if seg = "" || seg = "." then some stack
        else if seg = ".." then
          match stack with
          | [] => none
          | _ :: rest => some rest
        else some (seg :: stack)))
    (some [])).map List.reverse

/-- Embeds `StaticFiles.__call__` on an already-matched mount: resolve the
remaining path segments; if resolution escapes the mounted directory or
the resolved path names no file in the mounted directory `sstore`, answer
404; otherwise answer 200 with the file's bytes and a content type derived
from the file name by `ctypeOf`. -/
def serveStatic (sstore : List String → Option String) (ctypeOf : String → String)
    (segs : List String) : Response :=
  match resolveStatic segs with
  | none => staticNotFound
  | some key =>
      match sstore key with
      | none => staticNotFound
      | some content =>
          { status := 200, contentType := ctypeOf (key.getLastD ("")), body := content }

/-- The OpenAPI schema document FastAPI generates from the app metadata
(title "Mobile Synthesizer", version "0.1.0"). Its full text is produced
by framework internals from data outside this repository's code, so it is
abstracted as a fixed document. -/
def openapiDocument : String := "openapi schema of Mobile Synthesizer 0.1.0"

/-- The Swagger UI page served at `/docs` (framework-generated markup,
abstracted as a fixed document). -/
def swaggerUiDocument : String := "swagger ui page"

/-- The ReDoc page served at `/redoc` (framework-generated markup,
abstracted as a fixed document). -/
def redocDocument : String := "redoc page"

/-- The Swagger UI OAuth2 redirect page served at `/docs/oauth2-redirect`
(framework-generated markup, abstracted as a fixed document). -/
def oauth2RedirectDocument : String := "swagger ui oauth2 redirect page"

/-- The four documentation paths the `FastAPI` constructor registers by
default (`main.py` line 15): the OpenAPI schema, the Swagger UI, its
OAuth2 redirect page, and ReDoc, in registration order. -/
def docsPaths : List String :=
  ["/openapi.json", "/docs", "/docs/oauth2-redirect", "/redoc"]

/-- Responses of the framework-registered documentation routes: the
schema as JSON, the three pages as HTML; `none` on every other path. -/
def docsRoute (p : String) : Option Response :=
  if p = "/openapi.json" then
    some { status := 200, contentType := "application/json", body := openapiDocument }
  else if p = "/docs" then
    some { status := 200, contentType := "text/html; charset=utf-8",
           body := swaggerUiDocument }
  else if p = "/docs/oauth2-redirect" then
    some { status := 200, contentType := "text/html; charset=utf-8",
           body := oauth2RedirectDocument }
  else if p = "/redoc" then
    some { status := 200, contentType := "text/html; charset=utf-8",
           body := redocDocument }
  else none

/-- Remove every trailing `/` from a path (Python `str.rstrip("/")`). -/
def stripTrailingSlashes (p : String) : String :=
  String.mk (p.data.reverse.dropWhile (fun c => c = '/')).reverse

/-- Whether a path ends in `/`. -/
def endsWithSlash (p : String) : Bool :=
  p.data.getLastD ' ' == '/'

/-- The alternative path Starlette's `redirect_slashes` mechanism tries
when no route matched: the trailing slash is stripped, or appended. -/
def slashToggledPath (p : String) : String :=
  if endsWithSlash p then stripTrailingSlashes p else p ++ "/"

/-- Whether any registered route (static mount, documentation route, or
decorator-registered exact path) matches a path, method-blind; this is
the test the slash-redirect fallback performs on the toggled path. -/
def routePathMatches (p : String) : Bool :=
  matchesStaticMount p || docsPaths.contains p || registeredPaths.contains p

/-- Whether an unmatched path triggers Starlette's trailing-slash
redirect: the path is not `/` and its slash-toggled variant matches some
registered route. -/
def slashRedirects (p : String) : Bool :=
  p != "/" && routePathMatches (slashToggledPath p)

/-- Starlette `RedirectResponse` to the slash-toggled path: status 307
with an empty body (the `Location` header lies outside the modelled
response fields). -/
def redirectResponse : Response :=
  { status := 307, contentType := "", body := "" }

/-- Embeds the application's request dispatch, mirroring the registrations
of `main.py`: the `/static` mount (line 27), the four documentation routes
the `FastAPI` constructor registers by default (line 15), then the
decorator-registered exact-path routes; an unmatched path falls back to
the trailing-slash redirect before the default 404.
`render` abstracts Jinja2 rendering, `tstore` the template directory,
`sstore` the static directory (file path segments to contents), `ctypeOf`
the extension-based content-type inference. The documentation routes are
plain Starlette routes, which accept HEAD alongside GET (the transport
omits the body of a HEAD response). -/
def handle (render : String → String) (tstore : String → Option String)
    (sstore : List String → Option String) (ctypeOf : String → String)
    (req : Request) : Response :=
  if matchesStaticMount req.path then
    if req.method = Method.GET ∨ req.method = Method.HEAD then
      serveStatic sstore ctypeOf (splitSlash (req.path.drop 7))
    else methodNotAllowed
  else
    match docsRoute req.path with
    | some resp =>
        if req.method = Method.GET ∨ req.method = Method.HEAD then resp
        else methodNotAllowed
    | none =>
        if req.path = "/" then
          if req.method = Method.GET then root else methodNotAllowed
        else if req.path = "/api/health" then
          if req.method = Method.GET then api_health else methodNotAllowed
        else
          match pageTemplate req.path with
          | some tname =>
              if req.method = Method.GET then TemplateResponse render tstore tname
              else methodNotAllowed
          | none =>
              if slashRedirects req.path then redirectResponse else notFound

namespace PagesRouter

/-- The `synthesizer_interface` handler of `app/api/pages.py`. -/
def synthesizer_interface (render : String → String)
    (tstore : String → Option String) : Response :=
  TemplateResponse render tstore ("synthesizer.html")

/-- The `mixer_interface` handler of `app/api/pages.py`. -/
def mixer_interface (render : String → String)
    (tstore : String → Option String) : Response :=
  TemplateResponse render tstore ("mixer.html")

/-- The `presets_interface` handler of `app/api/pages.py`. -/
def presets_interface (render : String → String)
    (tstore : String → Option String) : Response :=
  TemplateResponse render tstore ("presets.html")

/-- The `sequencer_interface` handler of `app/api/pages.py`. -/
def sequencer_interface (render : String → String)
    (tstore : String → Option String) : Response :=
  TemplateResponse render tstore ("sequencer.html")

/-- The `recording_interface` handler of `app/api/pages.py`. -/
def recording_interface (render : String → String)
    (tstore : String → Option String) : Response :=
  TemplateResponse render tstore ("recording.html")

/-- The `effects_interface` handler of `app/api/pages.py`. -/
def effects_interface (render : String → String)
    (tstore : String → Option String) : Response :=
  TemplateResponse render tstore ("effects.html")

/-- The `profile_interface` handler of `app/api/pages.py`. -/
def profile_interface (render : String → String)
    (tstore : String → Option String) : Response :=
  TemplateResponse render tstore ("profile.html")

/-- The route table of the `APIRouter` in `app/api/pages.py`
(lines 16-55): path paired with the rendered template name. -/
def routes : List (String × String) :=
  [("/synthesizer", "synthesizer.html"),
   ("/mixer", "mixer.html"),
   ("/presets", "presets.html"),
   ("/sequencer", "sequencer.html"),
   ("/recording", "recording.html"),
   ("/effects", "effects.html"),
   ("/profile", "profile.html")]

end PagesRouter

namespace Endpoints

/-- The path root passed to `APIRouter` in `app/api/endpoints.py`
(the router's path argument `/api`). -/
def apiRoot : String := "/api"

/-- The route path of the health endpoint registered on that router. -/
def healthPath : String := "/health"

/-- Return value of `api_health()` in `app/api/endpoints.py`. -/
def api_health_payload : List (String × String) :=
  [("status", "healthy"),
   ("message", "Mobile Synthesizer API is operational")]

/-- The `api_health` handler of `app/api/endpoints.py`. -/
def api_health : Response := jsonResponse api_health_payload

end Endpoints

/-- Configuration of one bound HTTP listener. -/
structure ServerConfig where
  host : String
  port : Nat
  reload : Bool
deriving DecidableEq, Repr

/-- Embeds `main()` of `main.py` (and the identical `__main__` block,
lines 100-110): the listeners process startup binds, as a function of the
process environment. The code performs a single
`uvicorn.run(app, host="0.0.0.0", port=8000, reload=True)` call with
hard-coded literal arguments; it reads nothing from `env`. -/
def mainListeners (_env : String → Option String) : List ServerConfig :=
  [{ host := "0.0.0.0", port := 8000, reload := true }]

/-! Helper lemmas shared by the claim theorems. -/

/-- Dispatch of a registered page path reaches that page handler: for each
of the seven page names, a GET request to `/<name>` produces the template
response for `<name>.html`. -/
theorem handle_page (render : String → String) (tstore : String → Option String)
    (sstore : List String → Option String) (ct : String → String)
    (q : List (String × String)) (name : String) (h : name ∈ pageNames) :
    handle render tstore sstore ct ⟨Method.GET, "/" ++ name, q⟩ =
      TemplateResponse render tstore (name ++ ".html") := by
  fin_cases h <;> rfl

/-- `charsStartWith` holds of any character list extending the tested front. -/
theorem charsStartWith_append (pre rest : List Char) :
    charsStartWith (pre ++ rest) pre = true := by
  induction pre with
  | nil => cases rest <;> rfl
  | cons c cs ih => simp [charsStartWith, ih]

/-- A path of the form `/static/<p>` matches the static mount. -/
theorem matchesStaticMount_append (p : String) :
    matchesStaticMount ("/static/" ++ p) = true := by
  have h : strStartsWith ("/static/" ++ p) ("/static/") = true := by
    show charsStartWith ("/static/".data ++ p.data) ("/static/".data) = true
    exact charsStartWith_append _ _
  simp [matchesStaticMount, h]

/-- The registered path list, evaluated. -/
theorem registeredPaths_eq :
    registeredPaths = ["/", "/api/health", "/synthesizer", "/mixer", "/presets",
      "/sequencer", "/recording", "/effects", "/profile"] := rfl

/-- An unregistered page path resolves to no template. -/
theorem pageTemplate_eq_none (p : String)
    (h3 : p ≠ "/synthesizer") (h4 : p ≠ "/mixer") (h5 : p ≠ "/presets")
    (h6 : p ≠ "/sequencer") (h7 : p ≠ "/recording") (h8 : p ≠ "/effects")
    (h9 : p ≠ "/profile") : pageTemplate p = none := by
  unfold pageTemplate
  have h : mainPageRoutes.find? (fun r => r.1 = p) = none := by
    apply List.find?_eq_none.mpr
    intro r hr
    fin_cases hr <;> simp_all [eq_comm]
  rw [h]
  rfl

/-- The static file handler either answers 404 or serves the content of a
file of the mounted directory at the resolved key; if the resolved key
names no file (or resolution escapes the directory), it answers 404. -/
theorem serveStatic_safety (sstore : List String → Option String)
    (ct : String → String) (segs : List String) :
    ((serveStatic sstore ct segs).status = 200 →
      ∃ key, sstore key = some (serveStatic sstore ct segs).body) ∧
    ((resolveStatic segs).bind sstore = none →
      (serveStatic sstore ct segs).status = 404) := by
  unfold serveStatic
  rcases hres : resolveStatic segs with _ | key
  · exact ⟨fun h => absurd h (by simp [staticNotFound]), fun _ => rfl⟩
  · rcases hfile : sstore key with _ | content
    · exact ⟨fun h => absurd h (by simp [hfile, staticNotFound]),
             fun _ => by simp [hfile, staticNotFound]⟩
    · refine ⟨fun _ => ⟨key, by simp [hfile]⟩, fun hnone => ?_⟩
      have hk : sstore key = none := hnone
      rw [hfile] at hk
      cases hk

/-! Claim theorems. -/

/-- Claim C1: for every page name in the seven fixed page names, the
registered handler for `GET /<name>` answers status 200 with a content
type containing `text/html` and a body equal to the rendered template
`<name>.html` (whenever that template file exists, as every GET of an
existing page presupposes). -/
theorem pages_render_templates (render : String → String)
    (tstore : String → Option String) (sstore : List String → Option String)
    (ct : String → String) (q : List (String × String)) (name tpl : String)
    (hname : name ∈ pageNames) (htpl : tstore (name ++ ".html") = some tpl) :
    handle render tstore sstore ct ⟨Method.GET, "/" ++ name, q⟩ =
      { status := 200, contentType := "text/html; charset=utf-8", body := render tpl } ∧
    strStartsWith
      (handle render tstore sstore ct ⟨Method.GET, "/" ++ name, q⟩).contentType
      ("text/html") = true := by
  have h := handle_page render tstore sstore ct q name hname
  constructor
  · rw [h]
    unfold TemplateResponse
    rw [htpl]
  · rw [h]
    unfold TemplateResponse
    rw [htpl]
    rfl

/-- Witness for claim C1 at the page `synthesizer` with a one-file
template directory. -/
theorem pages_render_templates_witness :
    ("synthesizer" ∈ pageNames) ∧
    ((fun k => if k = "synthesizer.html" then some ("<html>") else none)
        ("synthesizer" ++ ".html") = some ("<html>")) ∧
    (handle (fun s => s)
        (fun k => if k = "synthesizer.html" then some ("<html>") else none)
        (fun _ => none) (fun _ => "") ⟨Method.GET, "/" ++ "synthesizer", []⟩ =
      { status := 200, contentType := "text/html; charset=utf-8", body := "<html>" } ∧
     strStartsWith
       (handle (fun s => s)
         (fun k => if k = "synthesizer.html" then some ("<html>") else none)
         (fun _ => none) (fun _ => "") ⟨Method.GET, "/" ++ "synthesizer", []⟩).contentType
       ("text/html") = true) :=
  ⟨by decide, by decide,
   pages_render_templates (fun s => s)
     (fun k => if k = "synthesizer.html" then some ("<html>") else none)
     (fun _ => none) (fun _ => "") [] "synthesizer" "<html>" (by decide) (by decide)⟩

/-- Claim C2: `GET /` answers exactly the JSON object of `rootPayload`
with status 200, and `GET /api/health` answers exactly the JSON object of
`apiHealthPayload` with status 200, for every request to those paths. -/
theorem health_endpoints_exact_json (render : String → String)
    (tstore : String → Option String) (sstore : List String → Option String)
    (ct : String → String) (q : List (String × String)) :
    handle render tstore sstore ct ⟨Method.GET, "/", q⟩ =
      { status := 200, contentType := "application/json",
        body := jsonBody [("message", "Mobile Synthesizer API is running"),
                          ("version", "0.1.0"), ("status", "healthy")] } ∧
    handle render tstore sstore ct ⟨Method.GET, "/api/health", q⟩ =
      { status := 200, contentType := "application/json",
        body := jsonBody [("status", "healthy"),
                          ("message", "Mobile Synthesizer API is operational")] } :=
  ⟨rfl, rfl⟩

/-- Claim C3: for every request path of the form `/static/<p>`, the static
mount only ever serves the content of a file of the mounted directory
(every 200 body is the content stored at some key of the directory, so
path traversal can never exfiltrate a file outside it), and a path naming
no existing file under the mounted directory answers 404. -/
theorem static_mount_safety (render : String → String)
    (tstore : String → Option String) (sstore : List String → Option String)
    (ct : String → String) (q : List (String × String)) (p : String) :
    ((handle render tstore sstore ct ⟨Method.GET, "/static/" ++ p, q⟩).status = 200 →
      ∃ key, sstore key =
        some (handle render tstore sstore ct ⟨Method.GET, "/static/" ++ p, q⟩).body) ∧
    ((resolveStatic (splitSlash (("/static/" ++ p).drop 7))).bind sstore = none →
      (handle render tstore sstore ct ⟨Method.GET, "/static/" ++ p, q⟩).status = 404) := by
  have hh : handle render tstore sstore ct ⟨Method.GET, "/static/" ++ p, q⟩ =
      serveStatic sstore ct (splitSlash (("/static/" ++ p).drop 7)) := by
    unfold handle
    simp [matchesStaticMount_append p]
  rw [hh]
  exact serveStatic_safety sstore ct _

/-- Witness for claim C3: a stored file is served from the store, and a
traversal path (`/static/../secret`) answers 404 on any store. -/
theorem static_mount_safety_witness :
    (∃ key, (fun k => if k = ["js", "app.js"] then (some ("X") : Option String) else none) key =
        some (handle (fun s => s) (fun _ => none)
          (fun k => if k = ["js", "app.js"] then some ("X") else none) (fun _ => "")
          ⟨Method.GET, "/static/" ++ "js/app.js", []⟩).body) ∧
    (handle (fun s => s) (fun _ => none) (fun _ => none) (fun _ => "")
        ⟨Method.GET, "/static/" ++ "../secret", []⟩).status = 404 :=
  ⟨(static_mount_safety (fun s => s) (fun _ => none)
      (fun k => if k = ["js", "app.js"] then some ("X") else none) (fun _ => "")
      [] ("js/app.js")).1 (by decide),
   (static_mount_safety (fun s => s) (fun _ => none) (fun _ => none)
      (fun _ => "") [] ("../secret")).2 (by decide)⟩

/-- A path that is none of the four documentation paths has no
documentation route. -/
theorem docsRoute_eq_none (p : String)
    (d1 : p ≠ "/openapi.json") (d2 : p ≠ "/docs")
    (d3 : p ≠ "/docs/oauth2-redirect") (d4 : p ≠ "/redoc") :
    docsRoute p = none := by
  unfold docsRoute
  simp [d1, d2, d3, d4]

/-- Claim C4 counterexample: the claim is false of the program. `/docs`
is neither one of the nine decorator-registered paths nor a static path,
yet `GET /docs` answers 200 (the `FastAPI` constructor registers it by
default); likewise `GET /synthesizer/` answers 307 (trailing-slash
redirect), not 404. -/
theorem unmatched_path_claim_counterexample :
    ("/docs" ∉ registeredPaths) ∧
    matchesStaticMount "/docs" = false ∧
    (handle (fun s => s) (fun _ => none) (fun _ => none) (fun _ => "")
        ⟨Method.GET, "/docs", []⟩).status = 200 ∧
    ("/synthesizer/" ∉ registeredPaths) ∧
    matchesStaticMount "/synthesizer/" = false ∧
    (handle (fun s => s) (fun _ => none) (fun _ => none) (fun _ => "")
        ⟨Method.GET, "/synthesizer/", []⟩).status = 307 :=
  ⟨by decide, by decide, rfl, by decide, by decide, rfl⟩

/-- Claim C4 as amended: every GET request whose path is not a
decorator-registered exact path, is not handled by the static mount, is
not one of the four documentation routes the `FastAPI` constructor
registers by default, and does not trigger the trailing-slash redirect
(its slash-toggled variant matching a registered route), answers
status 404. -/
theorem unmatched_path_returns_404 (render : String → String)
    (tstore : String → Option String) (sstore : List String → Option String)
    (ct : String → String) (q : List (String × String)) (p : String)
    (hreg : p ∉ registeredPaths) (hstatic : matchesStaticMount p = false)
    (hdocs : p ∉ docsPaths) (hredir : slashRedirects p = false) :
    (handle render tstore sstore ct ⟨Method.GET, p, q⟩).status = 404 := by
  rw [registeredPaths_eq] at hreg
  simp only [List.mem_cons, List.not_mem_nil, or_false, not_or] at hreg
  obtain ⟨h1, h2, h3, h4, h5, h6, h7, h8, h9⟩ := hreg
  simp only [docsPaths, List.mem_cons, List.not_mem_nil, or_false, not_or] at hdocs
  obtain ⟨d1, d2, d3, d4⟩ := hdocs
  have hpt := pageTemplate_eq_none p h3 h4 h5 h6 h7 h8 h9
  have hdr := docsRoute_eq_none p d1 d2 d3 d4
  simp [handle, hstatic, hdr, h1, h2, hpt, hredir, notFound]

/-- Witness for claim C4 at the unknown page `/nosuchpage`. -/
theorem unmatched_path_returns_404_witness :
    ("/nosuchpage" ∉ registeredPaths) ∧
    matchesStaticMount "/nosuchpage" = false ∧
    ("/nosuchpage" ∉ docsPaths) ∧
    slashRedirects "/nosuchpage" = false ∧
    (handle (fun s => s) (fun _ => none) (fun _ => none) (fun _ => "")
        ⟨Method.GET, "/nosuchpage", []⟩).status = 404 :=
  ⟨by decide, by decide, by decide, by decide,
   unmatched_path_returns_404 (fun s => s) (fun _ => none) (fun _ => none)
     (fun _ => "") [] "/nosuchpage" (by decide) (by decide) (by decide) (by decide)⟩

/-- Claim C5: if the backing template file of one of the seven page routes
is absent from the template directory, the route is still registered (the
route table is a constant of the program, so nothing detects the absence
at startup) and a GET of the page fails at request time with status 500. -/
theorem missing_template_fails_at_request_time (render : String → String)
    (tstore : String → Option String) (sstore : List String → Option String)
    (ct : String → String) (q : List (String × String)) (name : String)
    (hname : name ∈ pageNames) (hmiss : tstore (name ++ ".html") = none) :
    registeredPaths.contains ("/" ++ name) = true ∧
    (handle render tstore sstore ct ⟨Method.GET, "/" ++ name, q⟩).status = 500 := by
  constructor
  · fin_cases hname <;> decide
  · rw [handle_page render tstore sstore ct q name hname]
    unfold TemplateResponse
    rw [hmiss]
    rfl

/-- Witness for claim C5 at the page `synthesizer` with an empty template
directory. -/
theorem missing_template_fails_at_request_time_witness :
    ("synthesizer" ∈ pageNames) ∧
    ((fun _ : String => (none : Option String)) ("synthesizer" ++ ".html") = none) ∧
    (registeredPaths.contains ("/" ++ "synthesizer") = true ∧
     (handle (fun s => s) (fun _ => none) (fun _ => none) (fun _ => "")
        ⟨Method.GET, "/" ++ "synthesizer", []⟩).status = 500) :=
  ⟨by decide, rfl,
   missing_template_fails_at_request_time (fun s => s) (fun _ => none)
     (fun _ => none) (fun _ => "") [] "synthesizer" (by decide) rfl⟩

/-- Claim C6: page rendering is deterministic and idempotent: for fixed
template directory contents, two GET requests to the same path produce
identical responses (in particular byte-identical bodies), and the output
is independent of the query parameters (the only request inputs beyond
the path; the routes bind no path parameters). -/
theorem page_rendering_deterministic (render : String → String)
    (tstore : String → Option String) (sstore : List String → Option String)
    (ct : String → String) (p : String) (q₁ q₂ : List (String × String)) :
    handle render tstore sstore ct ⟨Method.GET, p, q₁⟩ =
      handle render tstore sstore ct ⟨Method.GET, p, q₂⟩ ∧
    (handle render tstore sstore ct ⟨Method.GET, p, q₁⟩).body =
      (handle render tstore sstore ct ⟨Method.GET, p, q₂⟩).body :=
  ⟨rfl, rfl⟩

/-- Claim C7: the two health handlers always succeed: for every request
reaching them, each answers status 200 with its fixed payload; being total
functions of no further input, they have no failure path. -/
theorem health_handlers_always_succeed (render : String → String)
    (tstore : String → Option String) (sstore : List String → Option String)
    (ct : String → String) (q : List (String × String)) :
    ((handle render tstore sstore ct ⟨Method.GET, "/", q⟩).status = 200 ∧
     handle render tstore sstore ct ⟨Method.GET, "/", q⟩ = jsonResponse rootPayload) ∧
    ((handle render tstore sstore ct ⟨Method.GET, "/api/health", q⟩).status = 200 ∧
     handle render tstore sstore ct ⟨Method.GET, "/api/health", q⟩ =
       jsonResponse apiHealthPayload) :=
  ⟨⟨rfl, rfl⟩, ⟨rfl, rfl⟩⟩

/-- Claim C8: the page handlers of the router module `pages.py` are
behaviorally equal to the inline page handlers of `main.py` (same route
table, and the handler functions agree on every rendering function and
template directory), and the `/api/health` handler of `endpoints.py`
serves the same path with the same payload as the one in `main.py`. -/
theorem router_module_equivalent_to_inline (render : String → String)
    (tstore : String → Option String) :
    PagesRouter.routes = mainPageRoutes ∧
    PagesRouter.synthesizer_interface render tstore = synthesizer_interface render tstore ∧
    PagesRouter.mixer_interface render tstore = mixer_interface render tstore ∧
    PagesRouter.presets_interface render tstore = presets_interface render tstore ∧
    PagesRouter.sequencer_interface render tstore = sequencer_interface render tstore ∧
    PagesRouter.recording_interface render tstore = recording_interface render tstore ∧
    PagesRouter.effects_interface render tstore = effects_interface render tstore ∧
    PagesRouter.profile_interface render tstore = profile_interface render tstore ∧
    Endpoints.apiRoot ++ Endpoints.healthPath = "/api/health" ∧
    Endpoints.api_health_payload = apiHealthPayload ∧
    Endpoints.api_health = api_health :=
  ⟨rfl, rfl, rfl, rfl, rfl, rfl, rfl, rfl, rfl, rfl, rfl⟩

/-- Claim C9 counterexample: the host and port are not configurable.
Setting `PORT` (or `HOST`) in the process environment leaves the bound
listener unchanged at `0.0.0.0:8000`, refuting the configurability the
claim asserts. -/
theorem startup_config_ignores_environment :
    (mainListeners (fun k => if k = "PORT" then some ("9000") else none)).map
        ServerConfig.port = [8000] ∧
    (mainListeners (fun k => if k = "HOST" then some ("127.0.0.1") else none)).map
        ServerConfig.host = ["0.0.0.0"] ∧
    mainListeners (fun k => if k = "PORT" then some ("9000") else none) =
      mainListeners (fun _ => none) :=
  ⟨rfl, rfl, rfl⟩

/-- Claim C9 as amended: process startup binds exactly one HTTP listener,
with hard-coded host `0.0.0.0` and port `8000`; host and port are not
configurable, and no environment-derived configuration exists. -/
theorem startup_fixed_host_port (env : String → Option String) :
    mainListeners env = [{ host := "0.0.0.0", port := 8000, reload := true }] ∧
    (mainListeners env).length = 1 :=
  ⟨rfl, rfl⟩

/-- Claim C10: every registered route accepts only GET: a request to any
registered path with a method other than GET answers 405 (method not
allowed) instead of being dispatched to the handler. -/
theorem non_get_method_rejected (render : String → String)
    (tstore : String → Option String) (sstore : List String → Option String)
    (ct : String → String) (q : List (String × String)) (m : Method) (p : String)
    (hm : m ≠ Method.GET) (hp : p ∈ registeredPaths) :
    handle render tstore sstore ct ⟨m, p, q⟩ = methodNotAllowed := by
  rw [registeredPaths_eq] at hp
  fin_cases hp <;> exact if_neg hm

/-- Witness for claim C10: `POST /api/health` answers 405. -/
theorem non_get_method_rejected_witness :
    (Method.POST ≠ Method.GET) ∧ ("/api/health" ∈ registeredPaths) ∧
    handle (fun s => s) (fun _ => none) (fun _ => none) (fun _ => "")
      ⟨Method.POST, "/api/health", []⟩ = methodNotAllowed :=
  ⟨by decide, by decide,
   non_get_method_rejected (fun s => s) (fun _ => none) (fun _ => none)
     (fun _ => "") [] Method.POST "/api/health" (by decide) (by decide)⟩

end MobileSynth
